import Mathlib

/-!
# Verification of three ZenML integration adapters

Shallow embedding of:
* `zenml/integrations/huggingface/model_deployers/huggingface_model_deployer.py`
* `zenml/integrations/xgboost/materializers/xgboost_booster_materializer.py`
* `zenml/datasources/tfrecords_datasource.py`

Python strings are modelled as Lean `String`, Python `os.environ` as an
association list, remote/side-effecting calls as explicit event traces, and
the artifact store / local filesystem as a partial map from paths (lists of
path components) to file contents.
-/

namespace ZenMLSpec

/-! ## Python string primitives

`pyStartsWith`, `pyEndsWith` and `pyTake` model Python's `str.startswith`,
`str.endswith` and `s[:n]` on the character-list representation. -/

def pyStartsWith (s p : String) : Bool :=
  s.data.take p.data.length == p.data

def pyEndsWith (s p : String) : Bool :=
  s.data.drop (s.data.length - p.data.length) == p.data

def pyTake (s : String) (n : Nat) : String :=
  ⟨s.data.take n⟩

def isHexDigitChar (c : Char) : Bool :=
  c.isDigit || (('a' ≤ c) && (c ≤ 'f')) || (('A' ≤ c) && (c ≤ 'F'))

/-- Follows the spec's words (not the code): "the first `n` hexadecimal
characters of the UUID's string form", read as the first `n` characters that
are hexadecimal digits. Used to compare against the code's `str(id)[:n]`. -/
def specFirstHexChars (n : Nat) (s : String) : String :=
  ⟨(s.data.filter isHexDigitChar).take n⟩

/-! ## Python errors and the process environment -/

inductive PyErr where
  | keyError
  | connectionError
  | fileNotFound (path : List String)
  | nativeError (msg : String)
deriving DecidableEq

/-- `os.environ`, modelled as an association list from variable names to
values. -/
abbrev Environ := List (String × String)

def envLookup : Environ → String → Option String
  | [], _ => none
  | (k', v) :: rest, k => if k' = k then some v else envLookup rest k

def envEraseKey (env : Environ) (k : String) : Environ :=
  env.filter (fun kv => kv.1 != k)

/-- `os.environ[k] = v`. -/
def envSet (env : Environ) (k v : String) : Environ :=
  (k, v) :: envEraseKey env k

/-- Python `dict.pop`: `dflt = none` models the one-argument form (raises
`KeyError` on a missing key), `dflt = some d` models `pop(k, d)`. -/
def dictPop (env : Environ) (k : String) (dflt : Option (Option String)) :
    Except PyErr (Option String × Environ) :=
  match envLookup env k with
  | some v => .ok (some v, envEraseKey env k)
  | none =>
    match dflt with
    | some d => .ok (d, env)
    | none => .error .keyError

/-! ## HuggingFace model deployer: data model -/

def ZENM_ENDPOINT_PREFIX : String := "zenml-"

def UUID_SLICE_LENGTH : Nat := 8

/-- Constant imported from `zenml.integrations.huggingface`; its exact value
is not under `src/` and is irrelevant to the claims — only its identity as an
artifact name matters. -/
def HUGGINGFACE_SERVICE_ARTIFACT : String := "huggingface_deployment_service"

structure HuggingFaceServiceConfig where
  endpoint_name : String
deriving DecidableEq

structure HuggingFaceDeploymentService where
  uuid : String
  config : HuggingFaceServiceConfig
deriving DecidableEq

/-- The deployer's own configuration (`self.config`): the auth token and the
namespace. The Python field `namespace` is a Lean keyword, hence
`hfNamespace`. -/
structure HuggingFaceModelDeployerConfig where
  token : String
  hfNamespace : String
deriving DecidableEq

/-- External side effects performed by the deployer, in program order. -/
inductive Event where
  | setEnv (token nspace : String)
  | unsetEnv
  | saveArtifact (name version : String)
  | logMetadata (name version : String)
  | startEndpoint (timeout : Nat)
  | stopEndpoint (timeout : Nat) (force : Bool)
  | releaseConfig
deriving DecidableEq

/-- Result of a deployer operation: the returned value (or the propagated
Python exception) together with the trace of external calls it made. -/
structure CallResult (α : Type) where
  result : Except PyErr α
  events : List Event

/-! ## HuggingFace model deployer: operations -/

/-- `prepare_environment_variable(set)`: sets `HF_TOKEN` and `HF_NAMESPACE`
from the deployer config, or removes both via `os.environ.pop(k, None)`
(the defaulted, non-raising form). -/
def prepare_environment_variable (cfg : HuggingFaceModelDeployerConfig)
    (setFlag : Bool) (env : Environ) : Except PyErr Environ :=
  if setFlag then
    .ok (envSet (envSet env "HF_TOKEN" cfg.token) "HF_NAMESPACE" cfg.hfNamespace)
  else
    match dictPop env "HF_TOKEN" (some none) with
    | .error e => .error e
    | .ok (_, env1) =>
      match dictPop env1 "HF_NAMESPACE" (some none) with
      | .error e => .error e
      | .ok (_, env2) => .ok env2

/-- `modify_endpoint_name`: prepend `"zenml-"` when absent, always append the
artifact version. -/
def modify_endpoint_name (endpoint_name artifact_version : String) : String :=
  let endpoint_name :=
    if pyStartsWith endpoint_name ZENM_ENDPOINT_PREFIX then endpoint_name
    else ZENM_ENDPOINT_PREFIX ++ endpoint_name
  endpoint_name ++ artifact_version

/-- Modelled from the spec: `HuggingFaceDeploymentService.start` is not under
`src/`. It performs the remote start with the given timeout; `err` abstracts
whether the remote call raises (failures are propagated, not retried). -/
def service_start (err : Option PyErr) (timeout : Nat) : CallResult Unit :=
  { result := match err with
      | none => .ok ()
      | some e => .error e
    events := [.startEndpoint timeout] }

/-- Modelled from the spec: `HuggingFaceDeploymentService.stop` is not under
`src/`. Per the spec's delete contract it stops the remote endpoint and then
releases its remote configuration; when the remote stop raises, the release
does not happen and the error propagates. -/
def service_stop (err : Option PyErr) (timeout : Nat) (force : Bool) :
    CallResult Unit :=
  match err with
  | none => { result := .ok (), events := [.stopEndpoint timeout force, .releaseConfig] }
  | some e => { result := .error e, events := [.stopEndpoint timeout force] }

/-- `_create_new_service`: build the service, derive the artifact version as
`str(id)[:UUID_SLICE_LENGTH]`, rewrite the endpoint name, save the artifact,
log its metadata, then start the service. -/
def create_new_service (err : Option PyErr) (id : String) (timeout : Nat)
    (config : HuggingFaceServiceConfig) : CallResult HuggingFaceDeploymentService :=
  let artifact_version := pyTake id UUID_SLICE_LENGTH
  let service : HuggingFaceDeploymentService :=
    ⟨id, ⟨modify_endpoint_name config.endpoint_name artifact_version⟩⟩
  let started := service_start err timeout
  { result := started.result.map (fun _ => service)
    events :=
      [.saveArtifact HUGGINGFACE_SERVICE_ARTIFACT artifact_version,
       .logMetadata HUGGINGFACE_SERVICE_ARTIFACT artifact_version] ++ started.events }

/-- `perform_deploy_model`: enable credentials, create and start the new
service, disable credentials. There is no `try`/`finally`: when the remote
start raises, the trailing disable call is never executed. -/
def perform_deploy_model (cfg : HuggingFaceModelDeployerConfig)
    (err : Option PyErr) (id : String) (config : HuggingFaceServiceConfig)
    (timeout : Nat) : CallResult HuggingFaceDeploymentService :=
  let created := create_new_service err id timeout config
  match created.result with
  | .ok s =>
    { result := .ok s
      events := [.setEnv cfg.token cfg.hfNamespace] ++ created.events ++ [.unsetEnv] }
  | .error e =>
    { result := .error e
      events := [.setEnv cfg.token cfg.hfNamespace] ++ created.events }

/-- `perform_stop_model`: enable credentials, stop, disable credentials; no
`try`/`finally`. -/
def perform_stop_model (cfg : HuggingFaceModelDeployerConfig)
    (err : Option PyErr) (service : HuggingFaceDeploymentService)
    (timeout : Nat) (force : Bool) : CallResult HuggingFaceDeploymentService :=
  let stopped := service_stop err timeout force
  match stopped.result with
  | .ok _ =>
    { result := .ok service
      events := [.setEnv cfg.token cfg.hfNamespace] ++ stopped.events ++ [.unsetEnv] }
  | .error e =>
    { result := .error e
      events := [.setEnv cfg.token cfg.hfNamespace] ++ stopped.events }

/-- `perform_start_model`: enable credentials, start, disable credentials; no
`try`/`finally`. -/
def perform_start_model (cfg : HuggingFaceModelDeployerConfig)
    (err : Option PyErr) (service : HuggingFaceDeploymentService)
    (timeout : Nat) : CallResult HuggingFaceDeploymentService :=
  let started := service_start err timeout
  match started.result with
  | .ok _ =>
    { result := .ok service
      events := [.setEnv cfg.token cfg.hfNamespace] ++ started.events ++ [.unsetEnv] }
  | .error e =>
    { result := .error e
      events := [.setEnv cfg.token cfg.hfNamespace] ++ started.events }

/-- `_clean_up_existing_service`: enable credentials, stop the existing
service, disable credentials; no `try`/`finally`. -/
def clean_up_existing_service (cfg : HuggingFaceModelDeployerConfig)
    (err : Option PyErr) (timeout : Nat) (force : Bool) : CallResult Unit :=
  let stopped := service_stop err timeout force
  match stopped.result with
  | .ok _ =>
    { result := .ok ()
      events := [.setEnv cfg.token cfg.hfNamespace] ++ stopped.events ++ [.unsetEnv] }
  | .error e =>
    { result := .error e
      events := [.setEnv cfg.token cfg.hfNamespace] ++ stopped.events }

/-- `perform_delete_model`: enable credentials, clean up the existing service
(which itself enables, stops, disables), disable credentials. -/
def perform_delete_model (cfg : HuggingFaceModelDeployerConfig)
    (err : Option PyErr) (service : HuggingFaceDeploymentService)
    (timeout : Nat) (force : Bool) : CallResult Unit :=
  let cleaned := clean_up_existing_service cfg err timeout force
  match cleaned.result with
  | .ok _ =>
    { result := .ok ()
      events := [.setEnv cfg.token cfg.hfNamespace] ++ cleaned.events ++ [.unsetEnv] }
  | .error e =>
    { result := .error e
      events := [.setEnv cfg.token cfg.hfNamespace] ++ cleaned.events }

/-- Effect of one traced event on the process environment; `setEnv` and
`unsetEnv` mirror `prepare_environment_variable`'s two branches, everything
else leaves the environment alone. -/
def applyEvent (env : Environ) (e : Event) : Environ :=
  match e with
  | .setEnv t n => envSet (envSet env "HF_TOKEN" t) "HF_NAMESPACE" n
  | .unsetEnv => envEraseKey (envEraseKey env "HF_TOKEN") "HF_NAMESPACE"
  | _ => env

def runEnv (env : Environ) (evs : List Event) : Environ :=
  evs.foldl applyEvent env

/-! ## Filesystem model

Paths are lists of components (`os.path.join a b` is `a ++ [b]`); a
filesystem maps each path to the content of the file stored there, if any. -/

abbrev FsPath := List String

abbrev FS := FsPath → Option String

def writeFile (fs : FS) (q : FsPath) (c : String) : FS :=
  fun p => if p = q then some c else fs p

/-- Deleting one file (`NamedTemporaryFile` cleanup on `with`-exit). -/
def eraseAt (fs : FS) (q : FsPath) : FS :=
  fun p => if p = q then none else fs p

/-- Deleting a whole directory tree (`TemporaryDirectory` cleanup on
`with`-exit). -/
def eraseUnder (fs : FS) (d : FsPath) : FS :=
  fun p => if d.isPrefixOf p then none else fs p

/-- Modelled from the spec: `zenml.io.fileio.copy` is not under `src/`. It
copies the file at `s` to `d`, and an I/O failure (missing source)
propagates as an error. -/
def fileio_copy (fs : FS) (s d : FsPath) : Except PyErr FS :=
  match fs s with
  | some c => .ok (writeFile fs d c)
  | none => .error (.fileNotFound s)

/-! ## XGBoost booster materializer

`xgb.Booster.save_model` / `load_model` belong to the external boosting
library (out of scope per the spec), so they are abstract parameters
`encodeB` / `decodeB`; their native errors are surfaced as `Except` errors.
`tempDir` is the fresh directory made by `tempfile.TemporaryDirectory`,
`tempFile` the fresh file made by `tempfile.NamedTemporaryFile`. -/

def DEFAULT_FILENAME : String := "model.json"

/-- `XgboostBoosterMaterializer.load`: copy `uri/model.json` into the
temporary directory, run the native loader on the temporary copy, and remove
the temporary directory on every exit path. Returns the result (or the
propagated error) and the final filesystem. -/
def materializer_load {B : Type} (decodeB : String → Except PyErr B)
    (uri tempDir : FsPath) (fs : FS) : Except PyErr B × FS :=
  let filepath := uri ++ [DEFAULT_FILENAME]
  let temp_file := tempDir ++ [DEFAULT_FILENAME]
  match fs filepath with
  | none =>
    -- fileio.copy raises; the `with` block removes the temporary directory
    (.error (.fileNotFound filepath), eraseUnder fs tempDir)
  | some c =>
    -- fileio.copy wrote `c` to temp_file; load_model reads that copy
    let fs1 := writeFile fs temp_file c
    match decodeB c with
    | .error e => (.error e, eraseUnder fs1 tempDir)
    | .ok b => (.ok b, eraseUnder fs1 tempDir)

/-- `XgboostBoosterMaterializer.save`: run the native saver into the
temporary file, copy it to `uri/model.json`, and remove the temporary file on
every exit path. -/
def materializer_save {B : Type} (encodeB : B → Except PyErr String)
    (uri tempFile : FsPath) (b : B) (fs : FS) : Except PyErr Unit × FS :=
  let filepath := uri ++ [DEFAULT_FILENAME]
  match encodeB b with
  | .error e => (.error e, eraseAt fs tempFile)
  | .ok c =>
    let fs1 := writeFile fs tempFile c
    match fileio_copy fs1 tempFile filepath with
    | .error e => (.error e, eraseAt fs1 tempFile)
    | .ok fs2 => (.ok (), eraseAt fs2 tempFile)

/-! ## TFRecords directory datasource -/

structure TFRecordsDatasource where
  name : String
  path : String
  schema : Option (List (String × String))
deriving DecidableEq

/-- `TFRecordsDatasource.__init__`: stores the path and the optional schema
mapping. -/
def TFRecordsDatasource.init (name path : String)
    (schema : Option (List (String × String))) : TFRecordsDatasource :=
  ⟨name, path, schema⟩

/-- Modelled from the spec: `zenml.utils.path_utils.copy_dir` is not under
`src/`. It recursively copies the full contents of `src` into `dst`,
preserving relative paths and byte content; files outside `dst` (and files
under `dst` with no counterpart in `src`) are untouched. -/
def copy_dir (src dst : FsPath) (fs : FS) : FS :=
  fun p =>
    if dst.isPrefixOf p then
      match fs (src ++ p.drop dst.length) with
      | some c => some c
      | none => fs p
    else fs p

/-- `TFRecordsDatasource.process`: resolve the configured source path to an
absolute path (`Path(self.path).resolve()`, modelled by the ambient `resolve`
function since resolution depends on the process working directory), then
copy the directory. -/
def TFRecordsDatasource.process (resolve : String → FsPath)
    (ds : TFRecordsDatasource) (output_path : FsPath) (fs : FS) : FS :=
  copy_dir (resolve ds.path) output_path fs

/-- The first two lines of `modify_endpoint_name` as a standalone function:
prepend `"zenml-"` exactly when it is absent. -/
def normalizeName (n : String) : String :=
  if pyStartsWith n ZENM_ENDPOINT_PREFIX then n else ZENM_ENDPOINT_PREFIX ++ n

/-! ## Helper lemmas -/

theorem modify_eq_normalize (n v : String) :
    modify_endpoint_name n v = normalizeName n ++ v := rfl

theorem pyStartsWith_iff {s p : String} :
    pyStartsWith s p = true ↔ s.data.take p.data.length = p.data := by
  simp [pyStartsWith]

theorem pyStartsWith_append {s p : String} (h : pyStartsWith s p = true) (t : String) :
    pyStartsWith (s ++ t) p = true := by
  rw [pyStartsWith_iff] at h ⊢
  have hlen : p.data.length ≤ s.data.length := by
    have h2 := congrArg List.length h
    rw [List.length_take] at h2
    omega
  rw [String.data_append, List.take_append_eq_append_take, h]
  have h0 : p.data.length - s.data.length = 0 := by omega
  rw [h0]
  simp

theorem pyStartsWith_normalizeName (n : String) :
    pyStartsWith (normalizeName n) ZENM_ENDPOINT_PREFIX = true := by
  unfold normalizeName
  split
  · next h => exact h
  · next h =>
      rw [pyStartsWith_iff, String.data_append, List.take_append_eq_append_take]
      simp

theorem pyStartsWith_modify (n v : String) :
    pyStartsWith (modify_endpoint_name n v) ZENM_ENDPOINT_PREFIX = true := by
  rw [modify_eq_normalize]
  exact pyStartsWith_append (pyStartsWith_normalizeName n) v

theorem modify_of_startsWith {m : String} (v : String)
    (h : pyStartsWith m ZENM_ENDPOINT_PREFIX = true) :
    modify_endpoint_name m v = m ++ v := by
  rw [modify_eq_normalize, normalizeName, if_pos h]

theorem pyStartsWith_false_iff {s p : String} :
    pyStartsWith s p = false ↔ ¬ s.data.take p.data.length = p.data := by
  simp [pyStartsWith]

/-- Appending the suffix a second time cannot create a doubled `"zenml-"`
prefix when the once-suffixed name does not already carry one: the six
characters of `"zenml-"` are pairwise distinct, so no overlap of the suffix
with the prefix block can complete a second `"zenml-"`. -/
theorem no_second_zenml {e v : String}
    (he : pyStartsWith e ZENM_ENDPOINT_PREFIX = true)
    (h1 : pyStartsWith (e ++ v) (ZENM_ENDPOINT_PREFIX ++ ZENM_ENDPOINT_PREFIX) = false) :
    pyStartsWith (e ++ v ++ v) (ZENM_ENDPOINT_PREFIX ++ ZENM_ENDPOINT_PREFIX) = false := by
  rw [pyStartsWith_iff] at he
  rw [pyStartsWith_false_iff] at h1 ⊢
  have hp6 : ZENM_ENDPOINT_PREFIX.data.length = 6 := rfl
  have hp12 : (ZENM_ENDPOINT_PREFIX ++ ZENM_ENDPOINT_PREFIX : String).data.length = 12 := rfl
  have hDlen : (ZENM_ENDPOINT_PREFIX ++ ZENM_ENDPOINT_PREFIX : String).data.length = 12 := rfl
  have hE6 : 6 ≤ e.data.length := by
    have h2 := congrArg List.length he
    rw [List.length_take, hp6] at h2
    omega
  have hdata2 : (e ++ v).data = e.data ++ v.data := String.data_append e v
  have hdata3 : (e ++ v ++ v).data = e.data ++ v.data ++ v.data := by
    rw [String.data_append, String.data_append]
  rw [hp12, hdata2] at h1
  rw [hp12, hdata3]
  intro hcontra
  by_cases hlen : 12 ≤ e.data.length + v.data.length
  · apply h1
    rw [List.take_append_eq_append_take] at hcontra
    have h0 : 12 - (e.data ++ v.data).length = 0 := by
      rw [List.length_append]; omega
    rw [h0, List.take_zero, List.append_nil] at hcontra
    exact hcontra
  · push_neg at hlen
    have hEle : e.data.length ≤ 12 := by omega
    rw [List.append_assoc, List.take_append_eq_append_take,
        List.take_of_length_le hEle] at hcontra
    have hVle : v.data.length ≤ 12 - e.data.length := by omega
    rw [List.take_append_eq_append_take, List.take_of_length_le hVle] at hcontra
    rcases Nat.eq_zero_or_pos v.data.length with hm0 | hm1
    · have hVnil : v.data = [] := List.length_eq_zero.mp hm0
      rw [hVnil] at hcontra
      simp at hcontra
      have hlc := congrArg List.length hcontra
      have h12 : (ZENM_ENDPOINT_PREFIX.data ++ ZENM_ENDPOINT_PREFIX.data).length = 12 := rfl
      omega
    · have hdrop : v.data ++ v.data.take (12 - e.data.length - v.data.length) =
          (ZENM_ENDPOINT_PREFIX ++ ZENM_ENDPOINT_PREFIX : String).data.drop e.data.length := by
        rw [← hcontra, List.drop_left]
      have hV : v.data =
          ((ZENM_ENDPOINT_PREFIX ++ ZENM_ENDPOINT_PREFIX : String).data.drop
            e.data.length).take v.data.length := by
        rw [← hdrop, List.take_left]
      have hT : v.data.take (12 - e.data.length - v.data.length) =
          (ZENM_ENDPOINT_PREFIX ++ ZENM_ENDPOINT_PREFIX : String).data.drop
            (e.data.length + v.data.length) := by
        have h4 := congrArg (List.drop v.data.length) hdrop
        rw [List.drop_left] at h4
        rw [h4, List.drop_drop]
      have hdec : ∀ k m : Fin 6, 1 ≤ m.val → k.val + m.val < 6 →
          ¬ ((((ZENM_ENDPOINT_PREFIX ++ ZENM_ENDPOINT_PREFIX : String).data.drop
                (k.val + 6)).take m.val).take (6 - k.val - m.val) =
              (ZENM_ENDPOINT_PREFIX ++ ZENM_ENDPOINT_PREFIX : String).data.drop
                (k.val + 6 + m.val)) := by
        decide
      have hk : e.data.length - 6 < 6 := by omega
      have hm : v.data.length < 6 := by omega
      apply hdec ⟨e.data.length - 6, hk⟩ ⟨v.data.length, hm⟩ hm1
        (by show e.data.length - 6 + v.data.length < 6; omega)
      have e1 : e.data.length - 6 + 6 = e.data.length := by omega
      have e2 : 6 - (e.data.length - 6) - v.data.length =
          12 - e.data.length - v.data.length := by omega
      simp only [e1, e2]
      rw [← hV]
      exact hT

theorem drop_append_append (x v : List Char) :
    (x ++ v ++ v).drop ((x ++ v ++ v).length - (v ++ v).length) = v ++ v := by
  have h : (x ++ v ++ v).length - (v ++ v).length = x.length := by
    simp [List.length_append]
  rw [h, List.append_assoc]
  exact List.drop_left x (v ++ v)

theorem pyEndsWith_double (x v : String) :
    pyEndsWith (x ++ v ++ v) (v ++ v) = true := by
  have hd : (x ++ v ++ v).data = x.data ++ v.data ++ v.data := by
    rw [String.data_append, String.data_append]
  have hp : ((v ++ v) : String).data = v.data ++ v.data := String.data_append v v
  simp only [pyEndsWith, hd, hp, beq_iff_eq]
  exact drop_append_append x.data v.data

theorem take_filter_of_all {p : Char → Bool} {l : List Char} {n : Nat}
    (h : (l.take n).all p = true) (hn : n ≤ l.length) :
    (l.filter p).take n = l.take n := by
  have hlen : (l.take n).length = n := by
    rw [List.length_take]
    omega
  conv_lhs => rw [← List.take_append_drop n l]
  rw [List.filter_append, List.filter_eq_self.mpr (by simpa using h)]
  exact List.take_left' hlen

theorem list_isPrefixOf_append (a b : List String) : a.isPrefixOf (a ++ b) = true := by
  simp [List.isPrefixOf_iff_prefix]

theorem envLookup_envEraseKey_self (env : Environ) (k : String) :
    envLookup (envEraseKey env k) k = none := by
  induction env with
  | nil => rfl
  | cons kv rest ih =>
    obtain ⟨k₁, v⟩ := kv
    by_cases h : k₁ = k
    · simpa [envEraseKey, List.filter_cons, h] using ih
    · simpa [envEraseKey, List.filter_cons, h, envLookup] using ih

theorem envLookup_envEraseKey_ne (env : Environ) {k' k : String} (h : k' ≠ k) :
    envLookup (envEraseKey env k') k = envLookup env k := by
  induction env with
  | nil => rfl
  | cons kv rest ih =>
    obtain ⟨k₁, v⟩ := kv
    by_cases h1 : k₁ = k'
    · subst h1
      have h2 : ¬ k₁ = k := h
      simp [envEraseKey, List.filter_cons, envLookup, h2] at ih ⊢
      exact ih
    · by_cases h2 : k₁ = k
      · have h3 : ¬ k = k' := fun hh => h hh.symm
        simp [envEraseKey, List.filter_cons, envLookup, h1, h2, h3]
      · simp [envEraseKey, List.filter_cons, envLookup, h1, h2] at ih ⊢
        exact ih

theorem envEraseKey_of_lookup_none {env : Environ} {k : String}
    (h : envLookup env k = none) : envEraseKey env k = env := by
  induction env with
  | nil => rfl
  | cons kv rest ih =>
    obtain ⟨k₁, v⟩ := kv
    by_cases h1 : k₁ = k
    · simp [envLookup, h1] at h
    · simp [envLookup, h1] at h
      simp [envEraseKey, List.filter_cons, h1] at ih ⊢
      exact ih h

theorem dictPop_default (env : Environ) (k : String) :
    dictPop env k (some none) = .ok (envLookup env k, envEraseKey env k) := by
  unfold dictPop
  cases h : envLookup env k with
  | none => rw [envEraseKey_of_lookup_none h]
  | some v => rfl

/-- Net effect of `prepare_environment_variable(set=False)` on the
environment. -/
def popBoth (env : Environ) : Environ :=
  envEraseKey (envEraseKey env "HF_TOKEN") "HF_NAMESPACE"

theorem prepare_disable_eq (cfg : HuggingFaceModelDeployerConfig) (env : Environ) :
    prepare_environment_variable cfg false env = .ok (popBoth env) := by
  simp only [prepare_environment_variable, Bool.false_eq_true, if_false, dictPop_default, popBoth]

/-! ## Claim theorems -/

/-- C1: for every model UUID (a string whose first 8 characters are
hexadecimal digits), the artifact version derived in `_create_new_service` —
recorded in the `saveArtifact` call — equals `str(id)[:8]`, which equals the
first 8 hexadecimal characters of the UUID's string form; and when the
original endpoint name does not already start with `"zenml-"`, the deployed
service's endpoint name is `"zenml-" ++ originalName ++ str(id)[:8]`. -/
theorem C1_artifact_version_and_endpoint_suffix
    (id : String) (timeout : Nat) (config : HuggingFaceServiceConfig)
    (err : Option PyErr)
    (hHex : (id.data.take UUID_SLICE_LENGTH).all isHexDigitChar = true)
    (hLen : UUID_SLICE_LENGTH ≤ id.data.length)
    (hPre : pyStartsWith config.endpoint_name ZENM_ENDPOINT_PREFIX = false) :
    pyTake id UUID_SLICE_LENGTH = specFirstHexChars UUID_SLICE_LENGTH id ∧
    Event.saveArtifact HUGGINGFACE_SERVICE_ARTIFACT (pyTake id UUID_SLICE_LENGTH) ∈
      (create_new_service err id timeout config).events ∧
    (create_new_service none id timeout config).result =
      .ok ⟨id, ⟨ZENM_ENDPOINT_PREFIX ++ config.endpoint_name ++ pyTake id UUID_SLICE_LENGTH⟩⟩ := by
  refine ⟨?_, ?_, ?_⟩
  · exact congrArg String.mk (take_filter_of_all hHex hLen).symm
  · simp [create_new_service, service_start]
  · have hmod : modify_endpoint_name config.endpoint_name (pyTake id UUID_SLICE_LENGTH) =
        ZENM_ENDPOINT_PREFIX ++ config.endpoint_name ++ pyTake id UUID_SLICE_LENGTH := by
      rw [modify_eq_normalize, normalizeName, if_neg (by simp [hPre])]
    simp [create_new_service, service_start, hmod, Except.map]

/-- C1 witness: the example scenario — deploying with modelId
`123e4567-e89b-12d3-a456-426614174000` yields artifact version `"123e4567"`
and endpoint name `"zenml-my-model123e4567"`. -/
theorem C1_witness :
    (pyTake "123e4567-e89b-12d3-a456-426614174000" UUID_SLICE_LENGTH =
        specFirstHexChars UUID_SLICE_LENGTH "123e4567-e89b-12d3-a456-426614174000" ∧
      Event.saveArtifact HUGGINGFACE_SERVICE_ARTIFACT
          (pyTake "123e4567-e89b-12d3-a456-426614174000" UUID_SLICE_LENGTH) ∈
        (create_new_service none "123e4567-e89b-12d3-a456-426614174000" 300 ⟨"my-model"⟩).events ∧
      (create_new_service none "123e4567-e89b-12d3-a456-426614174000" 300 ⟨"my-model"⟩).result =
        .ok ⟨"123e4567-e89b-12d3-a456-426614174000",
          ⟨ZENM_ENDPOINT_PREFIX ++ "my-model" ++
            pyTake "123e4567-e89b-12d3-a456-426614174000" UUID_SLICE_LENGTH⟩⟩) ∧
    pyTake "123e4567-e89b-12d3-a456-426614174000" UUID_SLICE_LENGTH = "123e4567" ∧
    modify_endpoint_name "my-model" "123e4567" = "zenml-my-model123e4567" :=
  ⟨C1_artifact_version_and_endpoint_suffix "123e4567-e89b-12d3-a456-426614174000" 300
      ⟨"my-model"⟩ none (by decide) (by decide) (by decide),
   by decide, by decide⟩

/-- C2 counterexample: at `n = "zenml-zenml-a"`, `v = "1234"` the claim's
"exactly one leading zenml-" conjunct fails — the doubly applied result
starts with `"zenml-zenml-"`, a doubled prefix inherited from the input. -/
theorem C2_counterexample :
    ¬ (pyStartsWith (modify_endpoint_name (modify_endpoint_name "zenml-zenml-a" "1234") "1234")
          ZENM_ENDPOINT_PREFIX = true ∧
       pyStartsWith (modify_endpoint_name (modify_endpoint_name "zenml-zenml-a" "1234") "1234")
          (ZENM_ENDPOINT_PREFIX ++ ZENM_ENDPOINT_PREFIX) = false ∧
       pyEndsWith (modify_endpoint_name (modify_endpoint_name "zenml-zenml-a" "1234") "1234")
          ("1234" ++ "1234") = true) := by
  decide

/-- C2 (amended): applying `modify_endpoint_name` twice appends the suffix
twice but prepends the prefix at most once — the second application is pure
suffixing (`modify(modify(n,v),v) = modify(n,v) ++ v`), the result starts
with `"zenml-"` and ends with `v` twice, and it has exactly one leading
`"zenml-"` whenever the once-modified name does not itself carry a doubled
prefix (a doubled prefix can only come from the input name or suffix, as in
the counterexample, never from the function prepending twice). -/
theorem C2_amended_prefix_once_suffix_twice (n v : String)
    (hOnce : pyStartsWith (modify_endpoint_name n v)
      (ZENM_ENDPOINT_PREFIX ++ ZENM_ENDPOINT_PREFIX) = false) :
    modify_endpoint_name (modify_endpoint_name n v) v = modify_endpoint_name n v ++ v ∧
    pyStartsWith (modify_endpoint_name (modify_endpoint_name n v) v)
      ZENM_ENDPOINT_PREFIX = true ∧
    pyEndsWith (modify_endpoint_name (modify_endpoint_name n v) v) (v ++ v) = true ∧
    pyStartsWith (modify_endpoint_name (modify_endpoint_name n v) v)
      (ZENM_ENDPOINT_PREFIX ++ ZENM_ENDPOINT_PREFIX) = false := by
  refine ⟨modify_of_startsWith v (pyStartsWith_modify n v), ?_, ?_, ?_⟩
  · rw [modify_of_startsWith v (pyStartsWith_modify n v)]
    exact pyStartsWith_append (pyStartsWith_modify n v) v
  · rw [modify_of_startsWith v (pyStartsWith_modify n v), modify_eq_normalize]
    exact pyEndsWith_double (normalizeName n) v
  · rw [modify_of_startsWith v (pyStartsWith_modify n v)]
    rw [modify_eq_normalize] at hOnce ⊢
    exact no_second_zenml (pyStartsWith_normalizeName n) hOnce

/-- C2 witness: a regular name and suffix satisfy the amended statement. -/
theorem C2_witness :
    modify_endpoint_name (modify_endpoint_name "my-model" "12345678") "12345678" =
      modify_endpoint_name "my-model" "12345678" ++ "12345678" ∧
    pyStartsWith (modify_endpoint_name (modify_endpoint_name "my-model" "12345678") "12345678")
      ZENM_ENDPOINT_PREFIX = true ∧
    pyEndsWith (modify_endpoint_name (modify_endpoint_name "my-model" "12345678") "12345678")
      ("12345678" ++ "12345678") = true ∧
    pyStartsWith (modify_endpoint_name (modify_endpoint_name "my-model" "12345678") "12345678")
      (ZENM_ENDPOINT_PREFIX ++ ZENM_ENDPOINT_PREFIX) = false :=
  C2_amended_prefix_once_suffix_twice "my-model" "12345678" (by decide)

/-- C3 counterexample: when the remote start raises during deploy, the
credential environment variables are still set after the operation has
exited — they are not absent on every exit path, refuting the claim. -/
theorem C3_counterexample :
    ¬ (envLookup (runEnv []
          (perform_deploy_model ⟨"tok", "ns"⟩ (some .connectionError)
            "123e4567-e89b-12d3-a456-426614174000" ⟨"my-model"⟩ 300).events)
        "HF_TOKEN" = none ∧
       envLookup (runEnv []
          (perform_deploy_model ⟨"tok", "ns"⟩ (some .connectionError)
            "123e4567-e89b-12d3-a456-426614174000" ⟨"my-model"⟩ 300).events)
        "HF_NAMESPACE" = none) := by
  decide

/-- C3 (amended): each deployer operation begins by setting the credential
variables and, on executions where the remote call succeeds, ends by
removing them (both absent at exit); but when the remote call raises, the
disable call is skipped and both variables remain set at exit — credentials
leak on the error path. -/
theorem C3_amended_env_window (cfg : HuggingFaceModelDeployerConfig)
    (id : String) (config : HuggingFaceServiceConfig)
    (service : HuggingFaceDeploymentService) (timeout : Nat) (force : Bool)
    (e : PyErr) :
    (envLookup (runEnv [] ((perform_deploy_model cfg none id config timeout).events.take 1))
        "HF_TOKEN" = some cfg.token ∧
     envLookup (runEnv [] ((perform_deploy_model cfg none id config timeout).events.take 1))
        "HF_NAMESPACE" = some cfg.hfNamespace) ∧
    (envLookup (runEnv [] (perform_deploy_model cfg none id config timeout).events)
        "HF_TOKEN" = none ∧
     envLookup (runEnv [] (perform_deploy_model cfg none id config timeout).events)
        "HF_NAMESPACE" = none ∧
     envLookup (runEnv [] (perform_stop_model cfg none service timeout force).events)
        "HF_TOKEN" = none ∧
     envLookup (runEnv [] (perform_stop_model cfg none service timeout force).events)
        "HF_NAMESPACE" = none ∧
     envLookup (runEnv [] (perform_start_model cfg none service timeout).events)
        "HF_TOKEN" = none ∧
     envLookup (runEnv [] (perform_start_model cfg none service timeout).events)
        "HF_NAMESPACE" = none ∧
     envLookup (runEnv [] (perform_delete_model cfg none service timeout force).events)
        "HF_TOKEN" = none ∧
     envLookup (runEnv [] (perform_delete_model cfg none service timeout force).events)
        "HF_NAMESPACE" = none) ∧
    (envLookup (runEnv [] (perform_deploy_model cfg (some e) id config timeout).events)
        "HF_TOKEN" = some cfg.token ∧
     envLookup (runEnv [] (perform_deploy_model cfg (some e) id config timeout).events)
        "HF_NAMESPACE" = some cfg.hfNamespace ∧
     envLookup (runEnv [] (perform_stop_model cfg (some e) service timeout force).events)
        "HF_TOKEN" = some cfg.token ∧
     envLookup (runEnv [] (perform_stop_model cfg (some e) service timeout force).events)
        "HF_NAMESPACE" = some cfg.hfNamespace ∧
     envLookup (runEnv [] (perform_start_model cfg (some e) service timeout).events)
        "HF_TOKEN" = some cfg.token ∧
     envLookup (runEnv [] (perform_start_model cfg (some e) service timeout).events)
        "HF_NAMESPACE" = some cfg.hfNamespace ∧
     envLookup (runEnv [] (perform_delete_model cfg (some e) service timeout force).events)
        "HF_TOKEN" = some cfg.token ∧
     envLookup (runEnv [] (perform_delete_model cfg (some e) service timeout force).events)
        "HF_NAMESPACE" = some cfg.hfNamespace) :=
  ⟨⟨rfl, rfl⟩,
   ⟨rfl, rfl, rfl, rfl, rfl, rfl, rfl, rfl⟩,
   ⟨rfl, rfl, rfl, rfl, rfl, rfl, rfl, rfl⟩⟩

/-- C4: in `_create_new_service` the artifact is saved (and its metadata
logged) strictly before the remote endpoint is started, the start call
receives the caller-supplied timeout, and a start failure is propagated
unchanged to the deploy caller, with no retry and with the artifact-save call
already in the trace. -/
theorem C4_artifact_saved_before_start (cfg : HuggingFaceModelDeployerConfig)
    (id : String) (timeout : Nat) (config : HuggingFaceServiceConfig)
    (err : Option PyErr) (e : PyErr) :
    (create_new_service err id timeout config).events =
      [.saveArtifact HUGGINGFACE_SERVICE_ARTIFACT (pyTake id UUID_SLICE_LENGTH),
       .logMetadata HUGGINGFACE_SERVICE_ARTIFACT (pyTake id UUID_SLICE_LENGTH),
       .startEndpoint timeout] ∧
    (create_new_service (some e) id timeout config).result = .error e ∧
    (perform_deploy_model cfg (some e) id config timeout).result = .error e :=
  ⟨rfl, rfl, rfl⟩

/-- C8: `perform_delete_model` wraps credential setup, the remote lifecycle
call and credential teardown (the trace opens with `setEnv` and closes with
`unsetEnv`, doubled because `_clean_up_existing_service` wraps again), and
the remote stop strictly precedes the release of the remote configuration. -/
theorem C8_delete_wraps_and_stops_before_release
    (cfg : HuggingFaceModelDeployerConfig) (service : HuggingFaceDeploymentService)
    (timeout : Nat) (force : Bool) :
    (perform_delete_model cfg none service timeout force).events =
      [.setEnv cfg.token cfg.hfNamespace, .setEnv cfg.token cfg.hfNamespace,
       .stopEndpoint timeout force, .releaseConfig, .unsetEnv, .unsetEnv] := rfl

/-- C9: the `schema` field of the directory datasource is inert — for any two
schema values (including none) and the same name, source path, output path
and filesystem, `process` produces identical filesystem effects. -/
theorem C9_schema_inert (resolve : String → FsPath) (name path : String)
    (s1 s2 : Option (List (String × String))) (output_path : FsPath) (fs : FS) :
    TFRecordsDatasource.process resolve (TFRecordsDatasource.init name path s1)
        output_path fs =
      TFRecordsDatasource.process resolve (TFRecordsDatasource.init name path s2)
        output_path fs := rfl

/-- C10: `prepare_environment_variable(set=False)` is total and idempotent:
for every starting environment it returns successfully (the removal uses the
defaulted `pop`, which never raises even when the variables are absent), it
removes both credential variables, running it on its own output changes
nothing, and after any positive number of consecutive disable calls neither
variable is present. -/
theorem C10_disable_total_idempotent (cfg : HuggingFaceModelDeployerConfig)
    (env : Environ) (n : Nat) :
    prepare_environment_variable cfg false env = .ok (popBoth env) ∧
    envLookup (popBoth env) "HF_TOKEN" = none ∧
    envLookup (popBoth env) "HF_NAMESPACE" = none ∧
    prepare_environment_variable cfg false (popBoth env) = .ok (popBoth env) ∧
    envLookup (popBoth^[n + 1] env) "HF_TOKEN" = none ∧
    envLookup (popBoth^[n + 1] env) "HF_NAMESPACE" = none := by
  have hTok : ∀ en : Environ, envLookup (popBoth en) "HF_TOKEN" = none := by
    intro en
    rw [popBoth, envLookup_envEraseKey_ne _ (by decide)]
    exact envLookup_envEraseKey_self _ _
  have hNs : ∀ en : Environ, envLookup (popBoth en) "HF_NAMESPACE" = none := by
    intro en
    exact envLookup_envEraseKey_self _ _
  have hFix : popBoth (popBoth env) = popBoth env := by
    show envEraseKey (envEraseKey (popBoth env) "HF_TOKEN") "HF_NAMESPACE" = popBoth env
    rw [envEraseKey_of_lookup_none (hTok env), envEraseKey_of_lookup_none (hNs env)]
  refine ⟨prepare_disable_eq cfg env, hTok env, hNs env, ?_, ?_, ?_⟩
  · rw [prepare_disable_eq cfg (popBoth env), hFix]
  · rw [Function.iterate_succ_apply' popBoth n env]
    exact hTok _
  · rw [Function.iterate_succ_apply' popBoth n env]
    exact hNs _

/-- C5: saving a boosting model and loading it back from the same URI (both
through the fixed file `model.json` inside the URI directory: save writes it,
load reads it) yields a model whose predictions on a fixed test input are
identical to the original's. The external library's serializer/deserializer
are the abstract `encodeB`/`decodeB`, assumed to round-trip (`hEnc`, `hDec`,
`hPred` are the boosting library's contract); the temporary staging file
lies outside the artifact store. -/
theorem C5_save_load_roundtrip {B I O : Type}
    (encodeB : B → Except PyErr String) (decodeB : String → Except PyErr B)
    (predict : B → I → O) (testInput : I)
    (uri tempFile tempDir : FsPath) (b b' : B) (c : String) (fs : FS)
    (hEnc : encodeB b = .ok c) (hDec : decodeB c = .ok b')
    (hPred : ∀ x : I, predict b' x = predict b x)
    (hTmp : tempFile ≠ uri ++ [DEFAULT_FILENAME]) :
    DEFAULT_FILENAME = "model.json" ∧
    (materializer_save encodeB uri tempFile b fs).1 = .ok () ∧
    (materializer_save encodeB uri tempFile b fs).2 (uri ++ [DEFAULT_FILENAME]) = some c ∧
    (materializer_load decodeB uri tempDir
        (materializer_save encodeB uri tempFile b fs).2).1 = .ok b' ∧
    predict b' testInput = predict b testInput := by
  have hTmp' : ¬ (uri ++ [DEFAULT_FILENAME] = tempFile) := fun hh => hTmp hh.symm
  have hsave1 : (materializer_save encodeB uri tempFile b fs).1 = .ok () := by
    simp [materializer_save, fileio_copy, writeFile, hEnc]
  have hsave2 : (materializer_save encodeB uri tempFile b fs).2
      (uri ++ [DEFAULT_FILENAME]) = some c := by
    simp [materializer_save, fileio_copy, writeFile, eraseAt, hEnc, hTmp']
  have hload : (materializer_load decodeB uri tempDir
      (materializer_save encodeB uri tempFile b fs).2).1 = .ok b' := by
    simp [materializer_load, hsave2, hDec]
  exact ⟨rfl, hsave1, hsave2, hload, hPred testInput⟩

/-- C5 witness: a concrete round-trip through the store at `["store"]` for a
model represented by `7`, with `toString`/`String.toNat?` standing in for the
external serializer. -/
theorem C5_witness :
    DEFAULT_FILENAME = "model.json" ∧
    (materializer_save (fun k => .ok (toString k)) ["store"] ["tmp", "t.json"]
        (7 : Nat) (fun _ => none)).1 = .ok () ∧
    (materializer_save (fun k => .ok (toString k)) ["store"] ["tmp", "t.json"]
        (7 : Nat) (fun _ => none)).2 (["store"] ++ [DEFAULT_FILENAME]) = some "7" ∧
    (materializer_load
        (fun s => if s = "7" then (.ok 7 : Except PyErr Nat) else .error (.nativeError s))
        ["store"] ["tmpdir"]
        (materializer_save (fun k => .ok (toString k)) ["store"] ["tmp", "t.json"]
          (7 : Nat) (fun _ => none)).2).1 = .ok 7 ∧
    (fun k x => k + x : Nat → Nat → Nat) 7 3 = (fun k x => k + x : Nat → Nat → Nat) 7 3 :=
  C5_save_load_roundtrip (fun k => .ok (toString k))
    (fun s => if s = "7" then (.ok 7 : Except PyErr Nat) else .error (.nativeError s))
    (fun k x => k + x) 3 ["store"] ["tmp", "t.json"] ["tmpdir"] 7 7 "7"
    (fun _ => none) rfl rfl (fun _ => rfl) (by decide)

/-- C6: in both `load` and `save` the temporary resource is removed on every
exit path — the temporary directory's contents are absent from the final
filesystem and nothing outside it is touched on the load error paths — and
any I/O error (missing artifact file) or native-library error (`decodeB` /
`encodeB` failure) propagates to the caller unchanged, with no retry. -/
theorem C6_temp_cleanup_and_error_propagation {B : Type}
    (decodeB : String → Except PyErr B) (encodeB : B → Except PyErr String)
    (uri tempDir tempFile : FsPath) (b : B) (fs : FS) :
    (∀ p, tempDir.isPrefixOf p = true →
      (materializer_load decodeB uri tempDir fs).2 p = none) ∧
    (∀ q, tempDir.isPrefixOf q = false →
      (materializer_load decodeB uri tempDir fs).2 q = fs q) ∧
    (materializer_save encodeB uri tempFile b fs).2 tempFile = none ∧
    (fs (uri ++ [DEFAULT_FILENAME]) = none →
      (materializer_load decodeB uri tempDir fs).1 =
        .error (.fileNotFound (uri ++ [DEFAULT_FILENAME]))) ∧
    (∀ c e, fs (uri ++ [DEFAULT_FILENAME]) = some c → decodeB c = .error e →
      (materializer_load decodeB uri tempDir fs).1 = .error e) ∧
    (∀ e, encodeB b = .error e →
      (materializer_save encodeB uri tempFile b fs).1 = .error e) := by
  refine ⟨?_, ?_, ?_, ?_, ?_, ?_⟩
  · intro p hp
    unfold materializer_load
    cases h1 : fs (uri ++ [DEFAULT_FILENAME]) with
    | none => simp [eraseUnder, hp, h1]
    | some c =>
      cases h2 : decodeB c with
      | error e2 => simp [eraseUnder, hp, h1, h2]
      | ok bb => simp [eraseUnder, hp, h1, h2]
  · intro q hq
    have hqt : ¬ (q = tempDir ++ [DEFAULT_FILENAME]) := by
      intro hEq
      rw [hEq, list_isPrefixOf_append] at hq
      simp at hq
    unfold materializer_load
    cases h1 : fs (uri ++ [DEFAULT_FILENAME]) with
    | none => simp [eraseUnder, hq, h1]
    | some c =>
      cases h2 : decodeB c with
      | error e2 => simp [eraseUnder, writeFile, hq, hqt, h1, h2]
      | ok bb => simp [eraseUnder, writeFile, hq, hqt, h1, h2]
  · cases hE : encodeB b with
    | error e => simp [materializer_save, hE, eraseAt]
    | ok c => simp [materializer_save, fileio_copy, writeFile, hE, eraseAt]
  · intro h1
    simp [materializer_load, h1]
  · intro c e h1 h2
    simp [materializer_load, h1, h2]
  · intro e hE
    simp [materializer_save, hE]

/-- C6 witness: concrete load with a missing artifact file (copy error, temp
directory still cleaned), concrete load whose native decode fails (error
propagated unchanged), and concrete save whose native encode fails. -/
theorem C6_witness :
    (materializer_load (fun _ => (.error (.nativeError "bad") : Except PyErr Nat))
        ["u"] ["t"] (fun _ => none)).2 ["t", "model.json"] = none ∧
    (materializer_load (fun _ => (.error (.nativeError "bad") : Except PyErr Nat))
        ["u"] ["t"] (fun _ => none)).1 =
      .error (.fileNotFound (["u"] ++ [DEFAULT_FILENAME])) ∧
    (materializer_load (fun _ => (.error (.nativeError "bad") : Except PyErr Nat))
        ["u"] ["t"]
        (fun p => if p = ["u", "model.json"] then some "x" else none)).1 =
      .error (.nativeError "bad") ∧
    (materializer_save (fun _ => (.error (.nativeError "enc") : Except PyErr String))
        ["u"] ["tf"] (0 : Nat) (fun _ => none)).1 = .error (.nativeError "enc") :=
  ⟨(C6_temp_cleanup_and_error_propagation (fun _ => .error (.nativeError "bad"))
      (fun _ => .error (.nativeError "enc")) ["u"] ["t"] ["tf"] (0 : Nat)
      (fun _ => none)).1 ["t", "model.json"] (by decide),
   (C6_temp_cleanup_and_error_propagation (fun _ => .error (.nativeError "bad"))
      (fun _ => .error (.nativeError "enc")) ["u"] ["t"] ["tf"] (0 : Nat)
      (fun _ => none)).2.2.2.1 rfl,
   (C6_temp_cleanup_and_error_propagation (fun _ => .error (.nativeError "bad"))
      (fun _ => .error (.nativeError "enc")) ["u"] ["t"] ["tf"] (0 : Nat)
      (fun p => if p = ["u", "model.json"] then some "x" else none)).2.2.2.2.1
      "x" (.nativeError "bad") (by decide) rfl,
   (C6_temp_cleanup_and_error_propagation (fun _ => .error (.nativeError "bad"))
      (fun _ => .error (.nativeError "enc")) ["u"] ["t"] ["tf"] (0 : Nat)
      (fun _ => none)).2.2.2.2.2 (.nativeError "enc") rfl⟩

/-- C7: `process` first resolves the configured source path to an absolute
path and then copies every file present in the source directory — identified
by relative path, with byte content unchanged — into the output directory,
preserving directory structure. -/
theorem C7_process_copies_every_file (resolve : String → FsPath)
    (ds : TFRecordsDatasource) (output_path : FsPath) (fs : FS)
    (rel : FsPath) (c : String)
    (h : fs (resolve ds.path ++ rel) = some c) :
    TFRecordsDatasource.process resolve ds output_path fs =
      copy_dir (resolve ds.path) output_path fs ∧
    TFRecordsDatasource.process resolve ds output_path fs (output_path ++ rel) = some c := by
  refine ⟨rfl, ?_⟩
  show copy_dir (resolve ds.path) output_path fs (output_path ++ rel) = some c
  simp only [copy_dir]
  rw [if_pos (list_isPrefixOf_append output_path rel), List.drop_left, h]

/-- C7 witness: a file at relative path `["sub", "a.tfrecord"]` with content
`"bytes"` is copied from the resolved source to the output directory. -/
theorem C7_witness :
    TFRecordsDatasource.process (fun _ => ["abs", "data"])
        (TFRecordsDatasource.init "d" "data" none) ["out"]
        (fun p => if p = ["abs", "data", "sub", "a.tfrecord"] then some "bytes" else none) =
      copy_dir ["abs", "data"] ["out"]
        (fun p => if p = ["abs", "data", "sub", "a.tfrecord"] then some "bytes" else none) ∧
    TFRecordsDatasource.process (fun _ => ["abs", "data"])
        (TFRecordsDatasource.init "d" "data" none) ["out"]
        (fun p => if p = ["abs", "data", "sub", "a.tfrecord"] then some "bytes" else none)
        (["out"] ++ ["sub", "a.tfrecord"]) = some "bytes" :=
  C7_process_copies_every_file (fun _ => ["abs", "data"])
    (TFRecordsDatasource.init "d" "data" none) ["out"]
    (fun p => if p = ["abs", "data", "sub", "a.tfrecord"] then some "bytes" else none)
    ["sub", "a.tfrecord"] "bytes" (by decide)

end ZenMLSpec
